import Mathlib

/-
Verification of the extraction core of an NBA box-score ETL pipeline
(src/extract/scraper.py, function scrape_nba_stats).

The scraper drives a browser session through season / season-type
selection and a paginated results table.  We embed it shallowly:

* the rendered page is abstracted to the data the scraper reads from it
  (the table rows as lists of cell texts, and the observable state of
  the pagination controls);
* the browser backend is an environment value supplying, per loop
  iteration, what the scraper's queries would have returned;
* Python exceptions become Option / Except values and explicit outcome
  constructors mirroring the except-branches of the source.
-/

/-! ## Python int() on an already-stripped string

`int(columns[i].get_text(strip=True) or 0)` in the source first strips
the cell text, substitutes 0 for an empty string, and otherwise parses
with Python `int`.  We model the ASCII fragment of `int`: an optional
single sign followed by a non-empty run of ASCII digits (underscore
separators and non-ASCII digits are not modelled; no claim exercises
them).  Surrounding whitespace is already removed by the strip. -/

/-- ASCII whitespace as Python str.strip removes it (the unicode cases
are not modelled; no claim exercises them). -/
def isPySpace (c : Char) : Bool :=
  c == ' ' || c == '\t' || c == '\n' || c == '\x0d' || c == '\x0b' || c == '\x0c'

def dropLeadingSpace : List Char → List Char
  | [] => []
  | c :: rest => if isPySpace c then dropLeadingSpace rest else c :: rest

/-- Python str.strip / BeautifulSoup get_text with strip=True on a cell:
whitespace removed from both ends. -/
def pyStrip (s : String) : String :=
  ⟨(dropLeadingSpace (dropLeadingSpace s.data).reverse).reverse⟩

def digitsVal : List Char → Nat → Option Nat
  | [], acc => some acc
  | c :: cs, acc =>
      if c.isDigit then digitsVal cs (acc * 10 + (c.toNat - 48)) else none

def digitsValNE (cs : List Char) : Option Nat :=
  match cs with
  | [] => none
  | _ :: _ => digitsVal cs 0

def pyIntList : List Char → Option Int
  | [] => none
  | c :: rest =>
      if c = '-' then (digitsValNE rest).map (fun m => -(Int.ofNat m))
      else if c = '+' then (digitsValNE rest).map Int.ofNat
      else (digitsValNE (c :: rest)).map Int.ofNat

def pyIntOfTrimmed (s : String) : Option Int :=
  pyIntList s.data

/-- One numeric cell, as the source computes it:
`int(text or 0)` where text is the stripped cell text — empty text
yields 0, anything else goes through Python int (scraper.py:123-125). -/
def numField (cell : String) : Option Int :=
  let t := pyStrip cell
  if t = "" then some 0 else pyIntOfTrimmed t

/-! ## Row records -/

/-- One output record, the dict built at scraper.py:118-127. -/
structure BoxScoreRecord where
  game_date : String
  player_name : String
  team : String
  opponent : String
  points : Int
  rebounds : Int
  assists : Int
deriving DecidableEq

/-- Parse one data row from its td cell texts (scraper.py:117-131).
The source indexes columns 0..6 and converts 4..6 with int(); an
IndexError (missing cell) or ValueError (bad numeric text) aborts the
whole record, caught at line 129, so the row yields nothing. -/
def parseRow (cells : List String) : Option BoxScoreRecord := do
  let c0 ← cells.get? 0
  let c1 ← cells.get? 1
  let c2 ← cells.get? 2
  let c3 ← cells.get? 3
  let c4 ← cells.get? 4
  let p ← numField c4
  let c5 ← cells.get? 5
  let rb ← numField c5
  let c6 ← cells.get? 6
  let asts ← numField c6
  some { game_date := pyStrip c0, player_name := pyStrip c1,
         team := pyStrip c2, opponent := pyStrip c3,
         points := p, rebounds := rb, assists := asts }

/-- Outcome of the per-row body of the loop at scraper.py:111-131:
a row with no td cells is skipped at line 114 (not logged as a parse
failure); otherwise the record either parses or the except branch at
line 129 drops it with a warning. -/
inductive RowOutcome
  | skipped
  | parsed (r : BoxScoreRecord)
  | rowError
deriving DecidableEq

def processRow (cells : List String) : RowOutcome :=
  if cells = [] then .skipped
  else
    match parseRow cells with
    | some r => .parsed r
    | none => .rowError

/-- The row loop of scraper.py:111-131: every row that yields a parsed
record is appended to the accumulator (all_data) in document order;
skipped and errored rows contribute nothing. -/
def rowsAppend (rows : List (List String)) (acc : List BoxScoreRecord) :
    List BoxScoreRecord :=
  match rows with
  | [] => acc
  | row :: rest =>
      match processRow row with
      | .parsed r => rowsAppend rest (acc ++ [r])
      | _ => rowsAppend rest acc

/-! ## Page markup -/

/-- A markup snapshot, abstracted to what the parse at scraper.py:101-109
reads from it: either no table element, or the list of tr rows of the
first table, each row being the list of its td cell texts. -/
inductive Markup
  | noTable
  | table (trs : List (List String))
deriving DecidableEq

/-- scraper.py:104-109: soup.find of the table; when present, its rows
with the first (header) row skipped by position. -/
def pageRows : Markup → Option (List (List String))
  | .noTable => none
  | .table trs => some (trs.drop 1)

/-! ## Pagination engine

The while-True loop at scraper.py:99-175.  Each iteration parses the
current page source, then decides the advance: first the page dropdown
(lines 134-155), on NoSuchElementException the Next button fallback
(lines 159-172), and on any other exception the generic handler at
line 173.  The environment records, per iteration, the markup the
page_source parse sees and the observable state of those controls. -/

/-- What the advance step at scraper.py:133-175 observes on the page.
dropdown: the page dropdown exists and reports the currently selected
page number and the option count (a dropdown whose selected text is not
an int raises ValueError into the generic handler; that is advanceError
here).  The button constructors cover the fallback branch; advanceError
is any other exception caught at line 173. -/
inductive AdvanceEnv
  | dropdown (current total : Nat)
  | buttonEnabled
  | buttonDisabled
  | buttonMissing
  | buttonIntercepted
  | advanceError
deriving DecidableEq

/-- How one advance decision ends: continue the loop on the next page,
or break — the spec distinguishes the break reasons as Done
(lines 154-155, 162-163, 168-169) versus Aborted (lines 170-172,
173-175). -/
inductive AdvanceResult
  | next
  | done
  | aborted
deriving DecidableEq

def advanceStep : AdvanceEnv → AdvanceResult
  | .dropdown current total => if current < total then .next else .done
  | .buttonEnabled => .next
  | .buttonDisabled => .done
  | .buttonMissing => .done
  | .buttonIntercepted => .aborted
  | .advanceError => .aborted

/-- One loop iteration's slice of the environment. -/
structure PageEnv where
  markup : Markup
  advance : AdvanceEnv
deriving DecidableEq

/-- How a season/season-type context ended.  ranOut is a modelling
artifact: the finite environment was exhausted while the loop would
have continued (the real site always answers, so claims hypothesise
enough pages). -/
inductive ContextEnd
  | done
  | aborted
  | ranOut
deriving DecidableEq

structure PaginateResult where
  records : List BoxScoreRecord
  pagesParsed : Nat
  ending : ContextEnd
deriving DecidableEq

/-- The pagination loop, scraper.py:99-175.  Per iteration: parse the
page (break with a warning when no table, line 105-107), run the row
loop appending to the shared accumulator, then decide the advance.
pagesParsed counts the iterations that reached the page-source parse —
the ParsingPage states of the spec state machine. -/
def paginate (pages : List PageEnv) (acc : List BoxScoreRecord) :
    PaginateResult :=
  match pages with
  | [] => ⟨acc, 0, .ranOut⟩
  | p :: rest =>
      match pageRows p.markup with
      | none => ⟨acc, 1, .done⟩
      | some rows =>
          let acc2 := rowsAppend rows acc
          match advanceStep p.advance with
          | .next =>
              let r := paginate rest acc2
              ⟨r.records, r.pagesParsed + 1, r.ending⟩
          | .done => ⟨acc2, 1, .done⟩
          | .aborted => ⟨acc2, 1, .aborted⟩

/-! ## Season loop and whole run -/

/-- Outcome of one dropdown selection block (scraper.py:69-81 for the
season, 84-96 for the season type): selected, or the control was absent
(NoSuchElementException), or any other exception — both failure cases
hit a continue to the next season. -/
inductive SelectOutcome
  | selected
  | notFound
  | failed
deriving DecidableEq

/-- Environment for one iteration of the season loop. -/
structure SeasonEnv where
  seasonSel : SelectOutcome
  typeSel : SelectOutcome
  pages : List PageEnv

/-- One iteration of the for-loop at scraper.py:65-175: the two
selection blocks, each continuing to the next season on failure, then
the pagination loop threading the shared all_data accumulator.  Both
Done and Aborted endings fall through to the next season with the
accumulated records kept. -/
def runSeason (env : SeasonEnv) (acc : List BoxScoreRecord) :
    List BoxScoreRecord :=
  match env.seasonSel with
  | .selected =>
      match env.typeSel with
      | .selected => (paginate env.pages acc).records
      | _ => acc
  | _ => acc

def runSeasons (envs : List SeasonEnv) (acc : List BoxScoreRecord) :
    List BoxScoreRecord :=
  match envs with
  | [] => acc
  | e :: rest => runSeasons rest (runSeason e acc)

/-- The configuration the caller passes in (docstring of
scrape_nba_stats and spec section 6). -/
structure ScrapeConfiguration where
  nba_stats_url : String
  seasons : List String
  season_type : String
deriving DecidableEq

/-- The literal dict assigned at scraper.py:38-42. -/
def hardcodedConfig : ScrapeConfiguration :=
  { nba_stats_url := "https://www.nba.com/stats/players/boxscores",
    seasons := ["2024-25"],
    season_type := "Regular Season" }

/-- scraper.py:38-42: the function body rebinds the config parameter to
a hardcoded dict before any use, so the configuration actually consumed
is the hardcoded one whatever the caller passed. -/
def effectiveConfig (_input : ScrapeConfiguration) : ScrapeConfiguration :=
  hardcodedConfig

/-- scraper.py:64: seasons = config.get of the seasons key; the
effective config always carries that key, so this is its seasons list.
The for-loop at line 65 runs one season-level context per element. -/
def seasonsIterated (input : ScrapeConfiguration) : List String :=
  (effectiveConfig input).seasons

def seasonContextsAttempted (input : ScrapeConfiguration) : Nat :=
  (seasonsIterated input).length

/-- The season loop of the run: one SeasonEnv consumed per season in
the iterated list (indexing the per-season environment by position). -/
def runSeasonLoop (f : Nat → SeasonEnv) :
    List String → Nat → List BoxScoreRecord → List BoxScoreRecord
  | [], _, acc => acc
  | _ :: rest, i, acc => runSeasonLoop f rest (i + 1) (runSeason (f i) acc)

/-- Environment for the whole run: whether webdriver.Chrome at
scraper.py:54 succeeds, whether driver.get at line 59 succeeds, and the
per-season environments. -/
structure ScrapeEnv where
  acquireOk : Bool
  navOk : Bool
  seasonEnv : Nat → SeasonEnv

inductive RunError
  | sessionInit
  | navigationError
deriving DecidableEq

/-- Result of the whole call: the returned record list, or the
exception that escaped; quitCalls counts executions of driver.quit. -/
structure RunOutcome where
  result : Except RunError (List BoxScoreRecord)
  quitCalls : Nat

/-- scrape_nba_stats, scraper.py:17-182.  webdriver.Chrome runs before
the try block, so a failed acquisition raises with no quit; inside the
try, driver.get may raise (propagating), otherwise the season loop
runs; the finally at lines 177-179 executes driver.quit exactly once on
either path. -/
def scrape_nba_stats (input : ScrapeConfiguration) (env : ScrapeEnv) :
    RunOutcome :=
  if env.acquireOk then
    let body : Except RunError (List BoxScoreRecord) :=
      if env.navOk then
        .ok (runSeasonLoop env.seasonEnv (seasonsIterated input) 0 [])
      else .error .navigationError
    { result := body, quitCalls := 1 }
  else { result := .error .sessionInit, quitCalls := 0 }

/-! ## Helper lemmas -/

theorem rowsAppend_acc (rows : List (List String)) :
    ∀ acc, rowsAppend rows acc = acc ++ rowsAppend rows [] := by
  induction rows with
  | nil => intro acc; simp [rowsAppend]
  | cons row rest ih =>
      intro acc
      cases h : processRow row with
      | parsed r =>
          simp only [rowsAppend, h, List.nil_append]
          rw [ih (acc ++ [r]), ih [r]]
          simp
      | skipped => simp only [rowsAppend, h]; rw [ih acc]
      | rowError => simp only [rowsAppend, h]; rw [ih acc]

theorem parseRow_none_of_short (row : List String) (h : row.length < 7) :
    parseRow row = none := by
  have h6 : row[6]? = none := List.getElem?_eq_none (by omega)
  simp [parseRow, h6, Option.bind_eq_none]

/-! ## Helper lemmas about the numeric parse and the row loop -/

theorem pyIntList_nonneg (cs : List Char) (n : Int)
    (hp : pyIntList cs = some n) (hm : '-' ∉ cs) : 0 ≤ n := by
  match cs with
  | [] => simp [pyIntList] at hp
  | c :: rest =>
      have h1 : c ≠ '-' := by
        intro e; exact hm (e ▸ List.mem_cons_self c rest)
      rw [pyIntList, if_neg h1] at hp
      by_cases h2 : c = '+'
      · rw [if_pos h2, Option.map_eq_some'] at hp
        obtain ⟨m, _, hn⟩ := hp
        exact le_of_le_of_eq (Int.natCast_nonneg m) hn
      · rw [if_neg h2, Option.map_eq_some'] at hp
        obtain ⟨m, _, hn⟩ := hp
        exact le_of_le_of_eq (Int.natCast_nonneg m) hn

theorem numField_nonneg (c : String) (n : Int) (h : numField c = some n)
    (hm : '-' ∉ (pyStrip c).data) : 0 ≤ n := by
  unfold numField at h
  by_cases he : pyStrip c = ""
  · simp [he] at h; omega
  · simp only [he, if_neg, if_false] at h
    exact pyIntList_nonneg _ _ h hm

theorem parseRow_eq_none_of_numField4 (cells : List String) (c : String)
    (h4 : cells.get? 4 = some c) (hnf : numField c = none) :
    parseRow cells = none := by
  simp only [List.get?_eq_getElem?] at h4
  simp [parseRow, Option.bind_eq_none, h4, hnf]

theorem parseRow_eq_none_of_numField5 (cells : List String) (c : String)
    (h5 : cells.get? 5 = some c) (hnf : numField c = none) :
    parseRow cells = none := by
  simp only [List.get?_eq_getElem?] at h5
  simp [parseRow, Option.bind_eq_none, h5, hnf]

theorem parseRow_eq_none_of_numField6 (cells : List String) (c : String)
    (h6 : cells.get? 6 = some c) (hnf : numField c = none) :
    parseRow cells = none := by
  simp only [List.get?_eq_getElem?] at h6
  simp [parseRow, Option.bind_eq_none, h6, hnf]

/-! ## Claim theorems: row parsing -/

/-- C2: for every data row parsed, a numeric field (points, rebounds,
assists) is defaulted to 0 exactly when that cell's stripped text is
empty: an empty cell yields 0, a non-empty cell yields the Python int
parse of its text with no coercion to 0, and a non-empty cell whose
text does not parse as an int makes the whole row drop. -/
theorem c2_numeric_defaults :
    (∀ cell : String, pyStrip cell = "" → numField cell = some 0) ∧
    (∀ cell : String, pyStrip cell ≠ "" →
      numField cell = pyIntOfTrimmed (pyStrip cell)) ∧
    (∀ (cells : List String) (c : String), cells.get? 4 = some c →
      pyStrip c ≠ "" → pyIntOfTrimmed (pyStrip c) = none →
      parseRow cells = none) ∧
    (∀ (cells : List String) (c : String), cells.get? 5 = some c →
      pyStrip c ≠ "" → pyIntOfTrimmed (pyStrip c) = none →
      parseRow cells = none) ∧
    (∀ (cells : List String) (c : String), cells.get? 6 = some c →
      pyStrip c ≠ "" → pyIntOfTrimmed (pyStrip c) = none →
      parseRow cells = none) := by
  refine ⟨?_, ?_, ?_, ?_, ?_⟩
  · intro cell h; simp [numField, h]
  · intro cell h; simp [numField, h]
  · intro cells c h4 hne hpi
    exact parseRow_eq_none_of_numField4 cells c h4
      (by simp [numField, hne]; exact hpi)
  · intro cells c h5 hne hpi
    exact parseRow_eq_none_of_numField5 cells c h5
      (by simp [numField, hne]; exact hpi)
  · intro cells c h6 hne hpi
    exact parseRow_eq_none_of_numField6 cells c h6
      (by simp [numField, hne]; exact hpi)

/-- Witness for C2 at the spec's own examples: the empty points cell
defaults to 0, the non-numeric points cell drops the row. -/
theorem c2_numeric_defaults_witness :
    numField "" = some 0 ∧
    parseRow ["2024-01-10", "J. Doe", "LAL", "BOS", "abc", "7", "4"] = none :=
  ⟨c2_numeric_defaults.1 "" (by decide),
   c2_numeric_defaults.2.2.1 ["2024-01-10", "J. Doe", "LAL", "BOS", "abc", "7", "4"]
     "abc" (by decide) (by decide) (by decide)⟩

/-- C3: no partial record ever reaches the output sequence — each row
either parses fully and appends exactly one complete record, or
contributes nothing; in particular a row with fewer than the seven
required cells contributes nothing wherever it sits in the table (the
total functions model that it does not crash the run). -/
theorem c3_no_partial_records :
    (∀ (row : List String) (acc : List BoxScoreRecord),
      (parseRow row = none ∧ rowsAppend [row] acc = acc) ∨
      (∃ r, parseRow row = some r ∧ rowsAppend [row] acc = acc ++ [r])) ∧
    (∀ row : List String, row.length < 7 →
      ∀ (pre post : List (List String)) (acc : List BoxScoreRecord),
        rowsAppend (pre ++ row :: post) acc = rowsAppend (pre ++ post) acc) := by
  constructor
  · intro row acc
    cases h : parseRow row with
    | none =>
        left
        refine ⟨rfl, ?_⟩
        by_cases hr : row = [] <;> simp [rowsAppend, processRow, h, hr]
    | some r =>
        right
        have hne : row ≠ [] := by
          intro e
          rw [e, parseRow_none_of_short [] (by simp)] at h
          exact Option.noConfusion h
        exact ⟨r, rfl, by simp [rowsAppend, processRow, h, hne]⟩
  · intro row hlen pre
    induction pre with
    | nil =>
        intro post acc
        by_cases hr : row = [] <;>
          simp [rowsAppend, processRow, parseRow_none_of_short row hlen, hr]
    | cons p rest ih =>
        intro post acc
        cases hp : processRow p <;> simp [rowsAppend, hp, ih]

/-- Witness for C3: a one-cell row is dropped without a record and
without disturbing the rest of the extraction. -/
theorem c3_no_partial_records_witness :
    ((parseRow ["2024-01-10"] = none ∧ rowsAppend [["2024-01-10"]] [] = []) ∨
      (∃ r, parseRow ["2024-01-10"] = some r ∧
        rowsAppend [["2024-01-10"]] [] = [] ++ [r])) ∧
    rowsAppend ([] ++ ["2024-01-10"] :: []) [] = rowsAppend ([] ++ []) [] :=
  ⟨c3_no_partial_records.1 ["2024-01-10"] [],
   c3_no_partial_records.2 ["2024-01-10"] (by decide) [] [] []⟩

/-- C9: row extraction is deterministic and idempotent in the markup —
running the row loop twice over the same rows appends two identical
blocks of records, each equal to the parse of those rows from an empty
accumulator, whatever was accumulated before. -/
theorem c9_idempotent_extraction (rows : List (List String))
    (acc : List BoxScoreRecord) :
    rowsAppend rows (rowsAppend rows acc) =
      acc ++ rowsAppend rows [] ++ rowsAppend rows [] := by
  rw [rowsAppend_acc rows (rowsAppend rows acc), rowsAppend_acc rows acc]

/-- C10: a table row with zero td cells (a nested header row) is
skipped silently — it is not a row-parse failure — contributes no
record, and the row loop continues with the remaining rows. -/
theorem c10_zero_cell_row_skipped (rest : List (List String))
    (acc : List BoxScoreRecord) :
    processRow [] = RowOutcome.skipped ∧
    rowsAppend ([] :: rest) acc = rowsAppend rest acc :=
  ⟨rfl, by simp [rowsAppend, processRow]⟩

/-! ## Claim theorems: pagination engine -/

/-- Environment of a dropdown-paginated context of n pages starting at
page a: on each page the dropdown reports that page's number as current
and the fixed option count as total, as scraper.py:142-144 reads them. -/
def dropdownPages (a n total : Nat) (ms : Nat → List (List String)) :
    List PageEnv :=
  match n with
  | 0 => []
  | Nat.succ k =>
      ⟨Markup.table (ms a), AdvanceEnv.dropdown a total⟩ ::
        dropdownPages (a + 1) k total ms

theorem paginate_dropdown_run (total : Nat) (ms : Nat → List (List String)) :
    ∀ (n a : Nat) (acc : List BoxScoreRecord), 0 < n → a + n = total + 1 →
      (paginate (dropdownPages a n total ms) acc).pagesParsed = n ∧
      (paginate (dropdownPages a n total ms) acc).ending = ContextEnd.done := by
  intro n
  induction n with
  | zero => intro a acc h; exact absurd h (lt_irrefl 0)
  | succ k ih =>
      intro a acc hpos hsum
      by_cases hk : k = 0
      · subst hk
        have ha : a = total := by omega
        subst ha
        simp [dropdownPages, paginate, pageRows, advanceStep]
      · have hk1 : 0 < k := Nat.pos_of_ne_zero hk
        have ha : a < total := by omega
        have h2 : a + 1 + k = total + 1 := by omega
        obtain ⟨hc, he⟩ :=
          ih (a + 1) (rowsAppend (ms a).tail acc) hk1 h2
        simp [dropdownPages, paginate, pageRows, advanceStep, ha, hc, he]

/-- C5: under the dropdown strategy, a context whose dropdown reports
total pages and starts at page 1, advancing the current page by one
each step, parses exactly total pages (ParsingPage states) and reaches
Done when the current page equals the total. -/
theorem c5_dropdown_termination (total : Nat) (ms : Nat → List (List String))
    (acc : List BoxScoreRecord) (h : 0 < total) :
    (paginate (dropdownPages 1 total total ms) acc).pagesParsed = total ∧
    (paginate (dropdownPages 1 total total ms) acc).ending = ContextEnd.done :=
  paginate_dropdown_run total ms total 1 acc h (by omega)

/-- Witness for C5 on a two-page dropdown context. -/
theorem c5_dropdown_termination_witness :
    (paginate (dropdownPages 1 2 2 (fun _ => [])) []).pagesParsed = 2 ∧
    (paginate (dropdownPages 1 2 2 (fun _ => [])) []).ending = ContextEnd.done :=
  c5_dropdown_termination 2 (fun _ => []) [] (by decide)

/-- C6: under the button strategy, after the parse of a page whose Next
control is enabled and clicked, if the newly loaded page's Next control
is marked disabled then exactly one more ParsingPage state occurs (that
page), the context reaches Done, and the output holds the records of
both pages once each in order — no page skipped, none revisited. -/
theorem c6_button_disabled_one_more_page (m1 m2 : List (List String))
    (rest : List PageEnv) (acc : List BoxScoreRecord) :
    paginate (⟨Markup.table m1, AdvanceEnv.buttonEnabled⟩ ::
        ⟨Markup.table m2, AdvanceEnv.buttonDisabled⟩ :: rest) acc =
      ⟨acc ++ rowsAppend (m1.drop 1) [] ++ rowsAppend (m2.drop 1) [],
       2, ContextEnd.done⟩ := by
  have h1 := rowsAppend_acc m1.tail acc
  have h2 := rowsAppend_acc m2.tail (acc ++ rowsAppend m1.tail [])
  simp [paginate, pageRows, advanceStep, h1, h2]

/-- C7: an intercepted click on the Next control aborts only the
current season context after exactly the current page: the records
accumulated so far (acc and the current page's rows) are retained
unchanged and the season loop continues with the remaining seasons. -/
theorem c7_intercepted_click_aborts_context (m : List (List String))
    (rest : List PageEnv) (es : List SeasonEnv) (acc : List BoxScoreRecord) :
    paginate (⟨Markup.table m, AdvanceEnv.buttonIntercepted⟩ :: rest) acc =
      ⟨acc ++ rowsAppend (m.drop 1) [], 1, ContextEnd.aborted⟩ ∧
    runSeasons (⟨SelectOutcome.selected, SelectOutcome.selected,
        ⟨Markup.table m, AdvanceEnv.buttonIntercepted⟩ :: rest⟩ :: es) acc =
      runSeasons es (acc ++ rowsAppend (m.drop 1) []) := by
  have h1 := rowsAppend_acc m.tail acc
  constructor
  · simp [paginate, pageRows, advanceStep, h1]
  · simp [runSeasons, runSeason, paginate, pageRows, advanceStep, h1]

/-! ## Claim theorems: configuration, session lifecycle, record shape -/

/-- A caller-supplied configuration differing from the hardcoded one in
every field; used to exhibit that the input is ignored. -/
def c1FailingInput : ScrapeConfiguration :=
  { nba_stats_url := "http://example.org",
    seasons := ["2022-23", "2023-24"],
    season_type := "Playoffs" }

/-- C1 is violated by the code: the rebinding at scraper.py:38-42
discards the caller's configuration (contradicting the function's own
docstring and the call from main.py), so for this two-season input the
URL navigated to is the hardcoded one, the seasons iterated are the
hardcoded single season, and one season-level context is attempted
instead of two. -/
theorem c1_config_ignored :
    effectiveConfig c1FailingInput = hardcodedConfig ∧
    seasonsIterated c1FailingInput = ["2024-25"] ∧
    seasonContextsAttempted c1FailingInput = 1 ∧
    c1FailingInput.seasons.length = 2 ∧
    c1FailingInput.nba_stats_url ≠ hardcodedConfig.nba_stats_url := by
  refine ⟨rfl, rfl, rfl, rfl, ?_⟩
  decide

/-- C4: for every run whose session acquisition succeeds, driver.quit
runs exactly once whatever the rest of the run does — normal
completion, any per-season environment (early termination or abort),
or a navigation error escaping to the finally block, in which case the
error still propagates out of the call. -/
theorem c4_release_exactly_once (input : ScrapeConfiguration)
    (env : ScrapeEnv) (h : env.acquireOk = true) :
    (scrape_nba_stats input env).quitCalls = 1 ∧
    (env.navOk = false →
      (scrape_nba_stats input env).result = Except.error RunError.navigationError) := by
  constructor
  · simp [scrape_nba_stats, h]
  · intro hn; simp [scrape_nba_stats, h, hn]

/-- Witness for C4 on a run whose navigation fails: quit still runs
once and the error propagates. -/
theorem c4_release_exactly_once_witness :
    (scrape_nba_stats hardcodedConfig
      ⟨true, false, fun _ => ⟨SelectOutcome.selected, SelectOutcome.selected, []⟩⟩).quitCalls = 1 ∧
    (false = false →
      (scrape_nba_stats hardcodedConfig
        ⟨true, false, fun _ => ⟨SelectOutcome.selected, SelectOutcome.selected, []⟩⟩).result =
        Except.error RunError.navigationError) :=
  c4_release_exactly_once hardcodedConfig
    ⟨true, false, fun _ => ⟨SelectOutcome.selected, SelectOutcome.selected, []⟩⟩ rfl

/-- A data row whose points cell reads -5: Python int accepts the sign,
so the record parses with a negative points value. -/
def c8BadRow : List String := ["2024-01-10", "J. Doe", "LAL", "BOS", "-5", "7", "4"]

/-- C8 as stated is false: this row parses into a record that reaches
the output sequence with points equal to -5, a negative integer. -/
theorem c8_negative_points_counterexample :
    rowsAppend [c8BadRow] [] =
      [{ game_date := "2024-01-10", player_name := "J. Doe", team := "LAL",
         opponent := "BOS", points := -5, rebounds := 7, assists := 4 }] ∧
    ((rowsAppend [c8BadRow] []).all (fun r => 0 ≤ r.points)) = false := by
  constructor
  · decide
  · decide

/-- C8 amended: every output record carries exactly the seven typed
fields of BoxScoreRecord (four strings, three integers — by
construction of parseRow), and the three numeric values are
non-negative whenever the stripped texts of the three numeric cells
contain no minus sign; a signed cell such as -5 yields a negative
value. -/
theorem c8_amended_nonneg (cells : List String) (r : BoxScoreRecord)
    (h : parseRow cells = some r)
    (h4 : ∀ c, cells[4]? = some c → '-' ∉ (pyStrip c).data)
    (h5 : ∀ c, cells[5]? = some c → '-' ∉ (pyStrip c).data)
    (h6 : ∀ c, cells[6]? = some c → '-' ∉ (pyStrip c).data) :
    0 ≤ r.points ∧ 0 ≤ r.rebounds ∧ 0 ≤ r.assists := by
  simp only [parseRow, Option.bind_eq_bind, Option.bind_eq_some,
    List.get?_eq_getElem?] at h
  obtain ⟨c0, h0, c1, h1, c2, h2, c3, h3, c4, hc4, p, hp, c5, hc5, rb, hrb,
    c6, hc6, asts, hasts, hr⟩ := h
  have hrr : r.points = p ∧ r.rebounds = rb ∧ r.assists = asts := by
    cases hr; exact ⟨rfl, rfl, rfl⟩
  obtain ⟨e1, e2, e3⟩ := hrr
  rw [e1, e2, e3]
  exact ⟨numField_nonneg c4 p hp (h4 c4 hc4),
         numField_nonneg c5 rb hrb (h5 c5 hc5),
         numField_nonneg c6 asts hasts (h6 c6 hc6)⟩

/-- Witness for C8 amended at the spec's empty-points example row. -/
theorem c8_amended_nonneg_witness :
    0 ≤ ({ game_date := "2024-01-10", player_name := "J. Doe", team := "LAL",
           opponent := "BOS", points := 0, rebounds := 7,
           assists := 4 } : BoxScoreRecord).points ∧
    0 ≤ ({ game_date := "2024-01-10", player_name := "J. Doe", team := "LAL",
           opponent := "BOS", points := 0, rebounds := 7,
           assists := 4 } : BoxScoreRecord).rebounds ∧
    0 ≤ ({ game_date := "2024-01-10", player_name := "J. Doe", team := "LAL",
           opponent := "BOS", points := 0, rebounds := 7,
           assists := 4 } : BoxScoreRecord).assists :=
  c8_amended_nonneg ["2024-01-10", "J. Doe", "LAL", "BOS", "", "7", "4"] _
    (by decide)
    (fun c hc => by simp at hc; subst hc; decide)
    (fun c hc => by simp at hc; subst hc; decide)
    (fun c hc => by simp at hc; subst hc; decide)
